import Mathlib

/-
Verification of the idempotent-request coordinator of the repository
`sushichan044/hono-idempotent-request`.

The canonical coordinator is `src/index.ts` (the Hono middleware
`idempotentRequest`).  The record type is `src/types.ts`.  The modules
`src/error.ts`, `src/strategy.ts`, `src/identifier.ts`,
`src/utils/response.ts` and the storage implementations are declared and
called by the sources at hand but their files are absent, so their
definitions below are modelled from the specification (each such
definition says so in its doc comment).

Requests, responses and stores are embedded as plain inductive data; the
middleware becomes a pure function from a store and a request to a
`RunOutput`, which also records the list of storage operations performed
and the number of downstream-handler invocations, so that frame and
exactly-once properties are statable.

A note on downstream errors: in Hono, `compose` wraps every dispatch
level in a try/catch; an error thrown by a downstream handler is caught
there and turned into the error handler's response (for `HTTPException`,
its own status and message) before control returns to the middleware
awaiting `next()`.  Hence `await next()` resolves normally and `c.res`
holds the error response.  The coordinator source relies on this (its
comment: "Even if route handler throws an error, this operation will be
executed").  `runNext` below embeds exactly this semantics.
-/

namespace HonoIdempotentRequest

/-- HTTP request as consumed by the middleware: method, URL, header list
and a buffered body (design section 6: the body is re-readable). -/
structure HttpRequest where
  method : String
  url : String
  headers : List (String × String)
  body : String
deriving Repr, DecidableEq

/-- HTTP response: status, header list and body. -/
structure HttpResponse where
  status : Nat
  headers : List (String × String)
  body : String
deriving Repr, DecidableEq

/-- Header lookup, modelling `c.req.header(name)`. -/
def getHeader (request : HttpRequest) (name : String) : Option String :=
  request.headers.lookup name

/-- Whether the first character list starts the second one. -/
def charsLeadWith : List Char → List Char → Bool
  | [], _ => true
  | _ :: _, [] => false
  | a :: as, b :: bs => a == b && charsLeadWith as bs

/-- Whether the first character list occurs contiguously in the second. -/
def charsInclude (target : List Char) : List Char → Bool
  | [] => charsLeadWith target []
  | c :: rest => charsLeadWith target (c :: rest) || charsInclude target rest

/-- JavaScript `String.prototype.includes`: substring containment, used by
the coordinator for the storage-key safety check (`src/index.ts` line 88). -/
def stringIncludes (s target : String) : Bool :=
  charsInclude target.data s.data

/-- Modelled from the spec: `src/utils/response.ts` is absent from the
sources.  A serialized response keeps the status, headers and body of the
response it was made from (section 8: replay is byte-identical in status
and body). -/
structure SerializedResponse where
  status : Nat
  headers : List (String × String)
  body : String
deriving Repr, DecidableEq

/-- Modelled from the spec: `serializeResponse` of the absent
`src/utils/response.ts` records the response verbatim. -/
def serializeResponse (response : HttpResponse) : SerializedResponse :=
  ⟨response.status, response.headers, response.body⟩

/-- Modelled from the spec: `deserializeResponse` of the absent
`src/utils/response.ts` rebuilds the stored response verbatim
(section 4.4 step 6c: "deserialize and return the stored response
verbatim"). -/
def deserializeResponse (stored : SerializedResponse) : HttpResponse :=
  ⟨stored.status, stored.headers, stored.body⟩

/-- Modelled from the spec: `cloneAndSerializeResponse` of the absent
`src/utils/response.ts`; cloning is irrelevant in a pure model, so it is
`serializeResponse`. -/
def cloneAndSerializeResponse (response : HttpResponse) : SerializedResponse :=
  serializeResponse response

/-- Stored idempotent request record, from `src/types.ts`
(`IdempotentRequestBase` plus the `lockedAt` discriminator of
`NonLockedIdempotentRequest` / `LockedIdempotentRequest`; the `Date` is a
numeric timestamp here). -/
structure StoredIdempotentRequest where
  storageKey : String
  fingerprint : Option String
  response : Option SerializedResponse
  lockedAt : Option Nat
deriving Repr, DecidableEq

/-- Modelled from the spec: the response creators of the absent
`src/error.ts`.  The missing-key rejection is a 400 with a fixed message
(the message text is the one the repository's tests expect). -/
def createIdempotencyKeyMissingErrorResponse : HttpResponse :=
  ⟨400, [], "Idempotency-Key is missing"⟩

/-- Modelled from the spec: payload-mismatch rejection of the absent
`src/error.ts`, a 422 with a fixed message (section 6 outcome table). -/
def createIdempotencyKeyPayloadMismatchErrorResponse : HttpResponse :=
  ⟨422, [], "Idempotency-Key is already used"⟩

/-- Modelled from the spec: conflict rejection of the absent
`src/error.ts`, a 409 with a fixed message (section 6 outcome table). -/
def createIdempotencyKeyConflictErrorResponse : HttpResponse :=
  ⟨409, [], "A request is outstanding for this Idempotency-Key"⟩

/-- Errors escaping the middleware (rather than answered as protocol
responses): `UnsafeImplementationError` and `IdempotencyKeyStorageError`
from `src/error.ts` — the storage error carries its original cause — and
`propagated`, an exception that leaves the middleware unchanged, without
any wrapping (an asynchronous storage rejection that bypassed a catch;
surfaced by the host's generic error boundary). -/
inductive CoordinatorError where
  | unsafeImplementation (message : String)
  | storageError (message : String) (cause : String)
  | propagated (cause : String)
deriving Repr, DecidableEq

/-- Server specification collaborator, from
`src/server-specification` as used by `src/index.ts`
(`satisfiesKeySpec`, `getFingerprint`, `getStorageKey`). -/
structure IdempotentRequestServerSpecification where
  satisfiesKeySpec : String → Bool
  getFingerprint : HttpRequest → String
  getStorageKey : HttpRequest → String

/-- Modelled from the spec: the request identifier built by
`createRequestIdentifier` of the absent `src/identifier.ts`; per
section 4.4 step 6a the identity compared on retry is the fingerprint. -/
structure RequestIdentifier where
  fingerprint : String
deriving Repr, DecidableEq

/-- Modelled from the spec: `createRequestIdentifier` of the absent
`src/identifier.ts` computes the fingerprint of the request through the
server specification. -/
def createRequestIdentifier (spec : IdempotentRequestServerSpecification)
    (request : HttpRequest) : RequestIdentifier :=
  ⟨spec.getFingerprint request⟩

/-- Modelled from the spec: `isIdenticalRequest` of the absent
`src/identifier.ts` compares the stored fingerprint with the freshly
computed one (section 4.4 step 6a; the older middleware variant inlines
literally this comparison). -/
def isIdenticalRequest (stored : StoredIdempotentRequest)
    (identifier : RequestIdentifier) : Bool :=
  stored.fingerprint == some identifier.fingerprint

/-- Activation strategy, from the doc comment in `src/index.ts` and
section 4.1: the string `"always"`, the string `"opt-in"`, or a custom
predicate. -/
inductive IdempotencyActivationStrategy where
  | always
  | optIn
  | custom (predicate : HttpRequest → Bool)

/-- Modelled from the spec: `prepareActivationStrategy` of the absent
`src/strategy.ts` (section 4.1 and the doc comment in `src/index.ts`):
`"always"` is constantly true, `"opt-in"` is true iff the Idempotency-Key
header is present, a function is the predicate itself; the default is
`"always"`. -/
def prepareActivationStrategy
    (strategy : Option IdempotencyActivationStrategy) :
    HttpRequest → Bool :=
  fun request =>
    match strategy with
    | none => true
    | some .always => true
    | some .optIn => (getHeader request "Idempotency-Key").isSome
    | some (.custom predicate) => predicate request

/-- Argument of `storage.findOrCreate`: the spread of the request
identifier plus the storage key (`src/index.ts` lines 96-99). -/
structure NewIdempotentRequest where
  storageKey : String
  fingerprint : String
deriving Repr, DecidableEq

/-- Result of `storage.findOrCreate`: whether a record was created and
the stored record (`src/index.ts` line 110 uses `storeResult.created` and
`storeResult.storedRequest`). -/
structure FindOrCreateResult where
  created : Bool
  storedRequest : StoredIdempotentRequest
deriving Repr, DecidableEq

/-- Failure of a storage operation.  The operations may be asynchronous
(section 4.3), so a failure is either a synchronous throw — the call
itself throws before handing back its (promised) result — or an
asynchronous rejection of the returned promise.  The distinction matters
to the coordinator: whether a guarding `try` catches the failure depends
on whether the operation's result is awaited inside that `try`. -/
inductive StorageFailure where
  | thrown (cause : String)
  | rejected (cause : String)
deriving Repr, DecidableEq

/-- The original exception carried by a storage failure. -/
def StorageFailure.cause : StorageFailure → String
  | .thrown cause => cause
  | .rejected cause => cause

/-- Storage contract, from `src/storage` as used by `src/index.ts`:
`findOrCreate`, `lock` and `setResponseAndUnlock` over an abstract state
`σ`.  Each operation may fail with a `StorageFailure` (synchronous throw
or asynchronous rejection).  `lock` receives the current time to stamp
`lockedAt`. -/
structure IdempotentRequestStorage (σ : Type) where
  findOrCreate : σ → NewIdempotentRequest → Except StorageFailure (σ × FindOrCreateResult)
  lock : σ → Nat → StoredIdempotentRequest → Except StorageFailure (σ × StoredIdempotentRequest)
  setResponseAndUnlock : σ → StoredIdempotentRequest → SerializedResponse → Except StorageFailure σ

/-- Fate of a `findOrCreate` failure under the guard of `src/index.ts`
lines 94-108: the `try` block is `return impl.storage.findOrCreate(...)`
with no `await`, so a synchronous throw is caught and wrapped in
`IdempotencyKeyStorageError` with the original cause, while an
asynchronous rejection is adopted only after the `try` has exited and
bypasses the catch, propagating unchanged. -/
def findOrCreateFailureToError : StorageFailure → CoordinatorError
  | .thrown cause =>
    .storageError "Failed to find or create the stored idempotent request"
      cause
  | .rejected cause => .propagated cause

/-- Fate of a `lock` failure under the guard of `src/index.ts` lines
139-150: the same un-awaited `return impl.storage.lock(...)` inside the
`try`, so only a synchronous throw is wrapped; an asynchronous rejection
bypasses the catch and propagates unchanged. -/
def lockFailureToError : StorageFailure → CoordinatorError
  | .thrown cause =>
    .storageError "Failed to lock the stored idempotent request" cause
  | .rejected cause => .propagated cause

/-- Fate of a `setResponseAndUnlock` failure under the guard of
`src/index.ts` lines 156-168: here the operation is awaited inside the
`try` (`await impl.storage.setResponseAndUnlock(...)`), so both a
synchronous throw and an asynchronous rejection are caught and wrapped
with the original cause. -/
def setResponseAndUnlockFailureToError (failure : StorageFailure) :
    CoordinatorError :=
  .storageError
    "Failed to save the response of an idempotent request. You should unlock the request manually."
    failure.cause

/-- Error thrown by a downstream handler (an `HTTPException`: status and
message). -/
structure HandlerError where
  status : Nat
  message : String
deriving Repr, DecidableEq

/-- Hono's error handler turns a thrown `HTTPException` into its response
(status and message). -/
def honoErrorResponse (e : HandlerError) : HttpResponse :=
  ⟨e.status, [], e.message⟩

/-- Semantics of `await next()` under Hono's `compose`: the downstream
handler's response, or, when the handler throws, the error handler's
response — the middleware never observes the exception and `c.res` holds
this value. -/
def runNext (handler : HttpRequest → Except HandlerError HttpResponse)
    (request : HttpRequest) : HttpResponse :=
  match handler request with
  | .ok response => response
  | .error e => honoErrorResponse e

/-- Storage operations issued during one middleware run, with their
arguments, in call order. -/
inductive StorageOp where
  | findOrCreateOp (input : NewIdempotentRequest)
  | lockOp (input : StoredIdempotentRequest)
  | setResponseAndUnlockOp (input : StoredIdempotentRequest)
      (response : SerializedResponse)
deriving Repr, DecidableEq

/-- Observable outcome of one middleware run: the result delivered to the
caller (a response, or a thrown coordinator error), the final storage
state, the storage operations issued and the number of downstream-handler
invocations. -/
structure RunOutput (σ : Type) where
  result : Except CoordinatorError HttpResponse
  state : σ
  storageOps : List StorageOp
  handlerCalls : Nat

/-- Injectable implementation, from `IdempotentRequestImplementation` in
`src/index.ts`: activation strategy (optional), server specification and
storage. -/
structure IdempotentRequestImplementation (σ : Type) where
  activationStrategy : Option IdempotencyActivationStrategy
  specification : IdempotentRequestServerSpecification
  storage : IdempotentRequestStorage σ

/-- Checks of `src/index.ts` lines 110-130 on a pre-existing record, in
source order: payload mismatch → 422; `lockedAt` present → 409; stored
response present → deserialized replay; otherwise `none` (continue to the
locking phase). -/
def retriedRequestCheck (stored : StoredIdempotentRequest)
    (identifier : RequestIdentifier) : Option HttpResponse :=
  if !(isIdenticalRequest stored identifier) then
    some createIdempotencyKeyPayloadMismatchErrorResponse
  else if stored.lockedAt.isSome then
    some createIdempotencyKeyConflictErrorResponse
  else
    match stored.response with
    | some stored => some (deserializeResponse stored)
    | none => none

/-- The middleware produced by `idempotentRequest` of `src/index.ts`, as a
pure function of the storage state, the clock, the request and the
downstream handler.  It follows the source line by line: activation
check; missing-or-invalid key → the missing-key response; fingerprint and
storage-key computation; the `UnsafeImplementationError` guard;
`findOrCreate` and `lock`, whose guards wrap only synchronous throws
(their `try` blocks return the un-awaited result, see
`findOrCreateFailureToError` / `lockFailureToError`); the
pre-existing-record checks of `retriedRequestCheck`; `await next()`; and
`setResponseAndUnlock` of the serialized `c.res`, whose guard awaits
inside the `try` and wraps both failure modes
(`setResponseAndUnlockFailureToError`). -/
def idempotentRequest {σ : Type} (impl : IdempotentRequestImplementation σ)
    (st : σ) (now : Nat) (request : HttpRequest)
    (handler : HttpRequest → Except HandlerError HttpResponse) :
    RunOutput σ :=
  let enabled := prepareActivationStrategy impl.activationStrategy request
  if enabled = false then
    ⟨.ok (runNext handler request), st, [], 1⟩
  else
    match getHeader request "Idempotency-Key" with
    | none => ⟨.ok createIdempotencyKeyMissingErrorResponse, st, [], 0⟩
    | some idempotencyKey =>
      if impl.specification.satisfiesKeySpec idempotencyKey = false then
        ⟨.ok createIdempotencyKeyMissingErrorResponse, st, [], 0⟩
      else
        let requestIdentifier := createRequestIdentifier impl.specification request
        let storageKey := impl.specification.getStorageKey request
        if stringIncludes storageKey idempotencyKey = false then
          ⟨.error (.unsafeImplementation
              "The storage-key must include the value of the `Idempotency-Key` header."),
            st, [], 0⟩
        else
          let newInput : NewIdempotentRequest :=
            ⟨storageKey, requestIdentifier.fingerprint⟩
          match impl.storage.findOrCreate st newInput with
          | .error failure =>
            ⟨.error (findOrCreateFailureToError failure),
              st, [.findOrCreateOp newInput], 0⟩
          | .ok (st1, storeResult) =>
            let earlyReturn : Option HttpResponse :=
              if storeResult.created then none
              else retriedRequestCheck storeResult.storedRequest requestIdentifier
            match earlyReturn with
            | some response =>
              ⟨.ok response, st1, [.findOrCreateOp newInput], 0⟩
            | none =>
              let nonLockedRequest := storeResult.storedRequest
              match impl.storage.lock st1 now nonLockedRequest with
              | .error failure =>
                ⟨.error (lockFailureToError failure),
                  st1, [.findOrCreateOp newInput, .lockOp nonLockedRequest], 0⟩
              | .ok (st2, lockedRequest) =>
                let res := runNext handler request
                let serialized := cloneAndSerializeResponse res
                match impl.storage.setResponseAndUnlock st2 lockedRequest serialized with
                | .error failure =>
                  ⟨.error (setResponseAndUnlockFailureToError failure),
                    st2,
                    [.findOrCreateOp newInput, .lockOp nonLockedRequest,
                      .setResponseAndUnlockOp lockedRequest serialized], 1⟩
                | .ok st3 =>
                  ⟨.ok res, st3,
                    [.findOrCreateOp newInput, .lockOp nonLockedRequest,
                      .setResponseAndUnlockOp lockedRequest serialized], 1⟩

/-- Association-list store keyed by storage key. -/
abbrev Store := List (String × StoredIdempotentRequest)

/-- Pure lookup in the store. -/
def storeGet (st : Store) (key : String) : Option StoredIdempotentRequest :=
  st.lookup key

/-- Replace-or-insert in the store. -/
def storeSet (st : Store) (key : String) (record : StoredIdempotentRequest) :
    Store :=
  match st with
  | [] => [(key, record)]
  | (k, r) :: rest =>
    if k == key then (key, record) :: rest
    else (k, r) :: storeSet rest key record

/-- Modelled from the spec: the in-memory storage (the repository's
in-memory test storage file is absent).  Per section 4.3: `findOrCreate`
returns the existing record or atomically inserts a brand-new unlocked,
response-less one; `lock` stamps the lock time and fails on a record that
is already locked; `setResponseAndUnlock` persists the response and
clears the lock. -/
def inMemoryStorage : IdempotentRequestStorage Store where
  findOrCreate st input :=
    match storeGet st input.storageKey with
    | some record => .ok (st, ⟨false, record⟩)
    | none =>
      let fresh : StoredIdempotentRequest :=
        ⟨input.storageKey, some input.fingerprint, none, none⟩
      .ok (storeSet st input.storageKey fresh, ⟨true, fresh⟩)
  lock st now record :=
    match storeGet st record.storageKey with
    | none => .error (.thrown "Request not found")
    | some current =>
      if current.lockedAt.isSome then .error (.thrown "Request is already locked")
      else
        let locked := { current with lockedAt := some now }
        .ok (storeSet st record.storageKey locked, locked)
  setResponseAndUnlock st record response :=
    match storeGet st record.storageKey with
    | none => .error (.thrown "Request not found")
    | some current =>
      .ok (storeSet st record.storageKey
        { current with response := some response, lockedAt := none })

/-
Interleaving model of two concurrent middleware invocations that share
one in-memory store (design section 5): every storage call of
`idempotentRequest` is one atomic step, and between two storage calls of
one worker the other worker may take any number of steps.  Both workers
carry the same storage key and fingerprint (two requests with the same
Idempotency-Key and identical payload) and have already passed the pure
pre-storage checks (activation, key validation, storage-key guard), which
read no shared state.  The `running` phase is the region in which the
worker holds the lock and its downstream handler is in flight.
-/

/-- Final outcome of a worker: a protocol response (fresh, replayed,
mismatch or conflict), or a thrown `IdempotencyKeyStorageError`. -/
inductive WorkerOutcome where
  | response (r : HttpResponse)
  | storageFailure
deriving Repr, DecidableEq

/-- Control point of a worker between atomic storage steps, holding the
data the coordinator keeps across the corresponding `await`:
the record to lock, or the locked record while the handler runs. -/
inductive WorkerPhase where
  | start
  | toLock (record : StoredIdempotentRequest)
  | running (locked : StoredIdempotentRequest)
  | done (outcome : WorkerOutcome)
deriving Repr, DecidableEq

/-- Whether a worker currently holds the lock with its handler in
flight. -/
def WorkerPhase.isRunning : WorkerPhase → Bool
  | .running _ => true
  | _ => false

/-- State of the two-worker system: the shared store and both workers'
phases. -/
structure ConcurrentSystem where
  store : Store
  ph1 : WorkerPhase
  ph2 : WorkerPhase
deriving Repr, DecidableEq

/-- One atomic step of a worker, following `idempotentRequest` branch by
branch over the in-memory storage: from `start`, the `findOrCreate` call
followed by the pure pre-existing-record checks (`retriedRequestCheck`);
from `toLock`, the `lock` call (done with a storage failure when the
record is concurrently locked); from `running`, the
`setResponseAndUnlock` call persisting the serialized handler response.
A finished worker takes no step. -/
def workerStep (sk fp : String) (resp : HttpResponse) (now : Nat)
    (store : Store) : WorkerPhase → Option (Store × WorkerPhase)
  | .start =>
    some (match inMemoryStorage.findOrCreate store ⟨sk, fp⟩ with
      | .error _ => (store, .done .storageFailure)
      | .ok (store1, result) =>
        if result.created then (store1, .toLock result.storedRequest)
        else
          match retriedRequestCheck result.storedRequest ⟨fp⟩ with
          | some response => (store1, .done (.response response))
          | none => (store1, .toLock result.storedRequest))
  | .toLock record =>
    some (match inMemoryStorage.lock store now record with
      | .error _ => (store, .done .storageFailure)
      | .ok (store1, locked) => (store1, .running locked))
  | .running locked =>
    some (match inMemoryStorage.setResponseAndUnlock store locked
        (cloneAndSerializeResponse resp) with
      | .error _ => (store, .done .storageFailure)
      | .ok store1 => (store1, .done (.response resp)))
  | .done _ => none

/-- Interleaving step of the system: either worker takes one atomic
step. -/
inductive SysStep (sk fp : String) (r1 r2 : HttpResponse) (n1 n2 : Nat) :
    ConcurrentSystem → ConcurrentSystem → Prop
  | worker1 (s : ConcurrentSystem) (store1 : Store) (p1 : WorkerPhase)
      (h : workerStep sk fp r1 n1 s.store s.ph1 = some (store1, p1)) :
      SysStep sk fp r1 r2 n1 n2 s ⟨store1, p1, s.ph2⟩
  | worker2 (s : ConcurrentSystem) (store1 : Store) (p2 : WorkerPhase)
      (h : workerStep sk fp r2 n2 s.store s.ph2 = some (store1, p2)) :
      SysStep sk fp r1 r2 n1 n2 s ⟨store1, s.ph1, p2⟩

/-- States reachable from the initial system (empty store, both workers
about to issue `findOrCreate`). -/
inductive Reachable (sk fp : String) (r1 r2 : HttpResponse) (n1 n2 : Nat) :
    ConcurrentSystem → Prop
  | init : Reachable sk fp r1 r2 n1 n2 ⟨[], .start, .start⟩
  | step {s s1 : ConcurrentSystem} :
      Reachable sk fp r1 r2 n1 n2 s → SysStep sk fp r1 r2 n1 n2 s s1 →
      Reachable sk fp r1 r2 n1 n2 s1

/-- Whether the record of the given key is currently locked in the
store. -/
def lockHeld (store : Store) (sk : String) : Bool :=
  match storeGet store sk with
  | some record => record.lockedAt.isSome
  | none => false

/-- Store part of the system invariant: the store is empty or holds
exactly the record of the shared key, with the shared fingerprint. -/
def StoreInv (sk fp : String) (store : Store) : Prop :=
  store = [] ∨
    ∃ record, store = [(sk, record)] ∧ record.storageKey = sk ∧
      record.fingerprint = some fp

/-- Phase part of the system invariant: a worker past `findOrCreate`
carries a record of the shared key, and a running worker holds the
lock. -/
def PhaseInv (sk : String) (store : Store) : WorkerPhase → Prop
  | .start => True
  | .toLock record => record.storageKey = sk
  | .running locked => locked.storageKey = sk ∧ lockHeld store sk = true
  | .done _ => True

/-- System invariant: store shape, per-worker phase consistency, the lock
is held exactly when some worker is running, and mutual exclusion. -/
def SysInv (sk fp : String) (s : ConcurrentSystem) : Prop :=
  StoreInv sk fp s.store ∧ PhaseInv sk s.store s.ph1 ∧
    PhaseInv sk s.store s.ph2 ∧
    (lockHeld s.store sk = true ↔
      (s.ph1.isRunning = true ∨ s.ph2.isRunning = true)) ∧
    ¬(s.ph1.isRunning = true ∧ s.ph2.isRunning = true)

/-
Concrete fixtures used by the witnesses of the theorems below.
-/

/-- Concrete server specification for witnesses: the only valid key is
`K1`, the fingerprint is the request body, the storage key is
method-path-key (the shape of the repository's test specification). -/
def exampleSpecification : IdempotentRequestServerSpecification where
  satisfiesKeySpec key := key == "K1"
  getFingerprint request := request.body
  getStorageKey request :=
    request.method ++ "-" ++ request.url ++ "-" ++
      ((getHeader request "Idempotency-Key").getD "")

/-- Concrete implementation over the in-memory store with the default
(`"always"`) activation strategy. -/
def exampleImplementation : IdempotentRequestImplementation Store :=
  ⟨none, exampleSpecification, inMemoryStorage⟩

/-- Concrete request with a valid key. -/
def exampleRequest : HttpRequest :=
  ⟨"POST", "/api/hello", [("Idempotency-Key", "K1")], "B"⟩

/-- Concrete request lacking the Idempotency-Key header. -/
def exampleRequestNoKey : HttpRequest :=
  ⟨"POST", "/api/hello", [], "B"⟩

/-- Concrete request whose key fails the format validation. -/
def exampleRequestBadKey : HttpRequest :=
  ⟨"POST", "/api/hello", [("Idempotency-Key", "bad")], "B"⟩

/-- Storage key `exampleSpecification` derives for `exampleRequest`. -/
def exampleStorageKey : String := "POST-/api/hello-K1"

/-- Concrete downstream handler answering 200. -/
def exampleOkHandler : HttpRequest → Except HandlerError HttpResponse :=
  fun _ => .ok ⟨200, [], "hello"⟩

/-- Concrete downstream handler that throws an `HTTPException`. -/
def exampleThrowHandler : HttpRequest → Except HandlerError HttpResponse :=
  fun _ => .error ⟨500, "Only for testing"⟩

/-- Concrete stored response used in the replay fixtures. -/
def exampleStoredResponse : SerializedResponse := ⟨200, [], "hello"⟩

/-- Store holding a completed record for `exampleRequest`: matching
fingerprint, unlocked, stored response present. -/
def exampleReplayStore : Store :=
  [(exampleStorageKey,
    ⟨exampleStorageKey, some "B", some exampleStoredResponse, none⟩)]

/-- Store holding a record for `exampleRequest` created from a different
payload (mismatching fingerprint). -/
def exampleMismatchStore : Store :=
  [(exampleStorageKey, ⟨exampleStorageKey, some "OTHER", none, none⟩)]

/-- Store holding a currently locked record for `exampleRequest` that
also carries a stored response. -/
def exampleLockedStore : Store :=
  [(exampleStorageKey,
    ⟨exampleStorageKey, some "B", some exampleStoredResponse, some 3⟩)]

/-- Server specification violating the storage-key contract: the storage
key never contains the idempotency key. -/
def exampleBadSpecification : IdempotentRequestServerSpecification where
  satisfiesKeySpec key := key == "K1"
  getFingerprint request := request.body
  getStorageKey _ := "fixed"

/-- Storage whose every operation throws synchronously, for the
storage-failure exhibits. -/
def failingStorage : IdempotentRequestStorage Unit where
  findOrCreate _ _ := .error (.thrown "boom")
  lock _ _ _ := .error (.thrown "boom")
  setResponseAndUnlock _ _ _ := .error (.thrown "boom")

/-- Asynchronous storage whose every operation returns a promise that
rejects, for the storage-failure exhibits. -/
def rejectingStorage : IdempotentRequestStorage Unit where
  findOrCreate _ _ := .error (.rejected "boom")
  lock _ _ _ := .error (.rejected "boom")
  setResponseAndUnlock _ _ _ := .error (.rejected "boom")

/-- Numeric tag of a storage operation, used to state that no operation
is retried. -/
def StorageOp.kindTag : StorageOp → Nat
  | .findOrCreateOp _ => 0
  | .lockOp _ => 1
  | .setResponseAndUnlockOp _ _ => 2

/-
Helper lemmas (shared by several of the claim theorems below).
-/

/-- Looking up the key just written returns the written record. -/
theorem storeGet_storeSet_self (st : Store) (k : String)
    (r : StoredIdempotentRequest) :
    storeGet (storeSet st k r) k = some r := by
  induction st with
  | nil => simp [storeGet, storeSet, List.lookup]
  | cons head rest ih =>
    obtain ⟨k1, r1⟩ := head
    by_cases h : k1 = k
    · subst h
      simp [storeGet, storeSet, List.lookup]
    · have hk : (k == k1) = false := beq_eq_false_iff_ne.mpr (Ne.symm h)
      simp only [storeSet, beq_iff_eq, if_neg h]
      simpa [storeGet, List.lookup, hk] using ih

/-- A pre-existing-record check that falls through to locking implies the
record was fingerprint-identical, unlocked and response-less. -/
theorem retriedRequestCheck_none {stored : StoredIdempotentRequest}
    {identifier : RequestIdentifier}
    (h : retriedRequestCheck stored identifier = none) :
    isIdenticalRequest stored identifier = true ∧
      stored.lockedAt = none ∧ stored.response = none := by
  unfold retriedRequestCheck at h
  by_cases hid : isIdenticalRequest stored identifier
  · by_cases hl : stored.lockedAt.isSome
    · simp [hid, hl] at h
    · rcases hr : stored.response with _ | r
      · exact ⟨hid, Option.not_isSome_iff_eq_none.mp hl, rfl⟩
      · simp [hid, hl, hr] at h
  · simp [hid] at h

/-- The in-memory storage hands out newly created records unlocked
(storage contract of section 4.3). -/
theorem inMemoryStorage_created_unlocked (st : Store)
    (input : NewIdempotentRequest) (st1 : Store)
    (result : FindOrCreateResult)
    (h : inMemoryStorage.findOrCreate st input = .ok (st1, result))
    (hc : result.created = true) :
    result.storedRequest.lockedAt = none := by
  unfold inMemoryStorage at h
  rcases hg : storeGet st input.storageKey with _ | record
  · simp [hg] at h
    rw [← h.2]
  · simp [hg] at h
    rw [← h.2] at hc
    simp at hc

/-- C1: for every request whose lookup key resolves to a pre-existing
record with a matching fingerprint, no lock held, and a stored response
present, the coordinator returns the deserialized stored response and
does not invoke the downstream handler. -/
theorem replayed_response_skips_handler
    (strategy : Option IdempotencyActivationStrategy)
    (spec : IdempotentRequestServerSpecification) (st : Store) (now : Nat)
    (request : HttpRequest)
    (handler : HttpRequest → Except HandlerError HttpResponse)
    (key : String) (record : StoredIdempotentRequest)
    (stored : SerializedResponse)
    (henabled : prepareActivationStrategy strategy request = true)
    (hheader : getHeader request "Idempotency-Key" = some key)
    (hvalid : spec.satisfiesKeySpec key = true)
    (hincl : stringIncludes (spec.getStorageKey request) key = true)
    (hfind : storeGet st (spec.getStorageKey request) = some record)
    (hfp : record.fingerprint = some (spec.getFingerprint request))
    (hlocked : record.lockedAt = none)
    (hresp : record.response = some stored) :
    (idempotentRequest ⟨strategy, spec, inMemoryStorage⟩ st now request
        handler).result = .ok (deserializeResponse stored) ∧
      (idempotentRequest ⟨strategy, spec, inMemoryStorage⟩ st now request
        handler).handlerCalls = 0 := by
  simp [idempotentRequest, henabled, hheader, hvalid, hincl, inMemoryStorage,
    hfind, retriedRequestCheck, isIdenticalRequest, hfp, hlocked, hresp,
    createRequestIdentifier]

/-- Witness for `replayed_response_skips_handler` at the concrete replay
fixture. -/
theorem replayed_response_skips_handler_witness :
    (idempotentRequest exampleImplementation exampleReplayStore 7
        exampleRequest exampleOkHandler).result
        = .ok (deserializeResponse exampleStoredResponse) ∧
      (idempotentRequest exampleImplementation exampleReplayStore 7
        exampleRequest exampleOkHandler).handlerCalls = 0 :=
  replayed_response_skips_handler none exampleSpecification exampleReplayStore
    7 exampleRequest exampleOkHandler "K1"
    ⟨exampleStorageKey, some "B", some exampleStoredResponse, none⟩
    exampleStoredResponse rfl (by decide) (by decide) (by decide) (by decide)
    (by decide) rfl rfl

/-- C3: on a pre-existing record the coordinator checks in fixed source
order: a fingerprint mismatch yields the 422 payload-mismatch rejection
before anything else; otherwise a present `lockedAt` yields the 409
conflict even when a stored response also exists (the response is
unconstrained here); otherwise a present response is replayed; otherwise
— unlocked, no response — processing resumes by issuing the lock
operation on the record. -/
theorem pre_existing_record_check_order
    (strategy : Option IdempotencyActivationStrategy)
    (spec : IdempotentRequestServerSpecification) (st : Store) (now : Nat)
    (request : HttpRequest)
    (handler : HttpRequest → Except HandlerError HttpResponse)
    (key : String) (record : StoredIdempotentRequest)
    (henabled : prepareActivationStrategy strategy request = true)
    (hheader : getHeader request "Idempotency-Key" = some key)
    (hvalid : spec.satisfiesKeySpec key = true)
    (hincl : stringIncludes (spec.getStorageKey request) key = true)
    (hfind : storeGet st (spec.getStorageKey request) = some record) :
    (isIdenticalRequest record ⟨spec.getFingerprint request⟩ = false →
      (idempotentRequest ⟨strategy, spec, inMemoryStorage⟩ st now request
          handler).result
        = .ok createIdempotencyKeyPayloadMismatchErrorResponse) ∧
    (isIdenticalRequest record ⟨spec.getFingerprint request⟩ = true →
      ∀ t, record.lockedAt = some t →
        (idempotentRequest ⟨strategy, spec, inMemoryStorage⟩ st now request
            handler).result
          = .ok createIdempotencyKeyConflictErrorResponse) ∧
    (isIdenticalRequest record ⟨spec.getFingerprint request⟩ = true →
      record.lockedAt = none →
      ∀ stored, record.response = some stored →
        (idempotentRequest ⟨strategy, spec, inMemoryStorage⟩ st now request
            handler).result = .ok (deserializeResponse stored)) ∧
    (isIdenticalRequest record ⟨spec.getFingerprint request⟩ = true →
      record.lockedAt = none → record.response = none →
      StorageOp.lockOp record ∈
        (idempotentRequest ⟨strategy, spec, inMemoryStorage⟩ st now request
          handler).storageOps) := by
  refine ⟨fun hmis => ?_, fun hid t hl => ?_, fun hid hl stored hr => ?_,
    fun hid hl hr => ?_⟩
  · simp [idempotentRequest, henabled, hheader, hvalid, hincl,
      inMemoryStorage, hfind, retriedRequestCheck, createRequestIdentifier,
      hmis]
  · simp [idempotentRequest, henabled, hheader, hvalid, hincl,
      inMemoryStorage, hfind, retriedRequestCheck, createRequestIdentifier,
      hid, hl]
  · simp [idempotentRequest, henabled, hheader, hvalid, hincl,
      inMemoryStorage, hfind, retriedRequestCheck, createRequestIdentifier,
      hid, hl, hr]
  · simp only [idempotentRequest, henabled, hheader, hvalid, hincl,
      createRequestIdentifier]
    simp only [inMemoryStorage, hfind]
    simp [retriedRequestCheck, hid, hl, hr]
    rcases hlk : inMemoryStorage.lock st now record with _ | ⟨st2, locked⟩
    · simp [inMemoryStorage] at hlk ⊢
      simp [hlk]
    · simp [inMemoryStorage] at hlk ⊢
      rcases hset : inMemoryStorage.setResponseAndUnlock st2 locked
          (cloneAndSerializeResponse (runNext handler request)) with _ | st3
      · simp [inMemoryStorage] at hset ⊢
        simp [hlk, hset]
      · simp [inMemoryStorage] at hset ⊢
        simp [hlk, hset]

/-- Witness for `pre_existing_record_check_order`: at the locked fixture
record (which also carries a stored response) the conflict branch fires. -/
theorem pre_existing_record_check_order_witness :
    (idempotentRequest exampleImplementation exampleLockedStore 9
        exampleRequest exampleOkHandler).result
      = .ok createIdempotencyKeyConflictErrorResponse :=
  (pre_existing_record_check_order none exampleSpecification
      exampleLockedStore 9 exampleRequest exampleOkHandler "K1"
      ⟨exampleStorageKey, some "B", some exampleStoredResponse, some 3⟩
      rfl (by decide) (by decide) (by decide) (by decide)).2.1
    (by decide) 3 rfl

/-- C4 (exhibit of the divergence): `src/index.ts` lines 70-76 return the
very same `createIdempotencyKeyMissingErrorResponse()` both when the
Idempotency-Key header is absent and when the key fails the
collaborator's format validation, so the two 400 rejections are
byte-identical and not distinguishable — against the specification and
the repository's own test, which expects the distinct fixed message for
the invalid-format case. -/
theorem invalid_key_response_equals_missing_key_response :
    (idempotentRequest exampleImplementation [] 0 exampleRequestBadKey
        exampleOkHandler).result
        = .ok createIdempotencyKeyMissingErrorResponse ∧
      (idempotentRequest exampleImplementation [] 0 exampleRequestNoKey
        exampleOkHandler).result
        = .ok createIdempotencyKeyMissingErrorResponse ∧
      (idempotentRequest exampleImplementation [] 0 exampleRequestBadKey
          exampleOkHandler).result
        = (idempotentRequest exampleImplementation [] 0 exampleRequestNoKey
            exampleOkHandler).result := by
  exact ⟨rfl, rfl, rfl⟩

/-- C7: outcomes short of the processing phase leave storage untouched.
First part: when the activation strategy returns false the run is a pure
pass-through — the downstream handler receives the request unmodified,
no storage operation is issued and the state is returned unchanged, for
any storage implementation.  Second part: a retry rejected for payload
mismatch answers the 422 without mutating the store (the first call's
record and response are unaffected), issuing only the side-effect-free
`findOrCreate` lookup and never invoking the handler. -/
theorem non_activation_and_mismatch_frame :
    (∀ (σ : Type) (impl : IdempotentRequestImplementation σ) (st : σ)
      (now : Nat) (request : HttpRequest)
      (handler : HttpRequest → Except HandlerError HttpResponse),
      prepareActivationStrategy impl.activationStrategy request = false →
        idempotentRequest impl st now request handler
          = ⟨.ok (runNext handler request), st, [], 1⟩) ∧
    (∀ (strategy : Option IdempotencyActivationStrategy)
      (spec : IdempotentRequestServerSpecification) (st : Store) (now : Nat)
      (request : HttpRequest)
      (handler : HttpRequest → Except HandlerError HttpResponse)
      (key : String) (record : StoredIdempotentRequest),
      prepareActivationStrategy strategy request = true →
      getHeader request "Idempotency-Key" = some key →
      spec.satisfiesKeySpec key = true →
      stringIncludes (spec.getStorageKey request) key = true →
      storeGet st (spec.getStorageKey request) = some record →
      isIdenticalRequest record ⟨spec.getFingerprint request⟩ = false →
        idempotentRequest ⟨strategy, spec, inMemoryStorage⟩ st now request
            handler
          = ⟨.ok createIdempotencyKeyPayloadMismatchErrorResponse, st,
              [.findOrCreateOp
                ⟨spec.getStorageKey request, spec.getFingerprint request⟩],
              0⟩) := by
  constructor
  · intro σ impl st now request handler hdis
    simp [idempotentRequest, hdis]
  · intro strategy spec st now request handler key record henabled hheader
      hvalid hincl hfind hmis
    simp [idempotentRequest, henabled, hheader, hvalid, hincl,
      inMemoryStorage, hfind, retriedRequestCheck, createRequestIdentifier,
      hmis]

/-- Witness for `non_activation_and_mismatch_frame`: a constant-false
custom strategy passes through, and the mismatch fixture answers 422 with
the store unchanged. -/
theorem non_activation_and_mismatch_frame_witness :
    idempotentRequest
        ⟨some (.custom fun _ => false), exampleSpecification, inMemoryStorage⟩
        ([] : Store) 0 exampleRequest exampleOkHandler
      = ⟨.ok (runNext exampleOkHandler exampleRequest), [], [], 1⟩ ∧
    idempotentRequest exampleImplementation exampleMismatchStore 0
        exampleRequest exampleOkHandler
      = ⟨.ok createIdempotencyKeyPayloadMismatchErrorResponse,
          exampleMismatchStore,
          [.findOrCreateOp ⟨exampleStorageKey, "B"⟩], 0⟩ :=
  ⟨non_activation_and_mismatch_frame.1 Store
      ⟨some (.custom fun _ => false), exampleSpecification, inMemoryStorage⟩
      [] 0 exampleRequest exampleOkHandler rfl,
    non_activation_and_mismatch_frame.2 none exampleSpecification
      exampleMismatchStore 0 exampleRequest exampleOkHandler "K1"
      ⟨exampleStorageKey, some "OTHER", none, none⟩
      rfl (by decide) (by decide) (by decide) (by decide) (by decide)⟩

/-- C8: if the collaborator's lookup key does not contain the raw
idempotency-key value, the coordinator raises
`UnsafeImplementationError` — an implementation-contract error in the
error channel, not a 4xx protocol response — before any storage
operation: no operation is issued and the state is unchanged, for any
storage implementation. -/
theorem storage_key_contract_violation_raises {σ : Type}
    (impl : IdempotentRequestImplementation σ) (st : σ) (now : Nat)
    (request : HttpRequest)
    (handler : HttpRequest → Except HandlerError HttpResponse)
    (key : String)
    (henabled : prepareActivationStrategy impl.activationStrategy request
      = true)
    (hheader : getHeader request "Idempotency-Key" = some key)
    (hvalid : impl.specification.satisfiesKeySpec key = true)
    (hincl : stringIncludes (impl.specification.getStorageKey request) key
      = false) :
    idempotentRequest impl st now request handler
      = ⟨.error (.unsafeImplementation
            "The storage-key must include the value of the `Idempotency-Key` header."),
          st, [], 0⟩ := by
  simp [idempotentRequest, henabled, hheader, hvalid, hincl]

/-- Witness for `storage_key_contract_violation_raises` at the
specification whose storage key is a constant. -/
theorem storage_key_contract_violation_raises_witness :
    idempotentRequest
        (⟨none, exampleBadSpecification, inMemoryStorage⟩ :
          IdempotentRequestImplementation Store)
        ([] : Store) 0 exampleRequest exampleOkHandler
      = ⟨.error (.unsafeImplementation
            "The storage-key must include the value of the `Idempotency-Key` header."),
          [], [], 0⟩ :=
  storage_key_contract_violation_raises
    ⟨none, exampleBadSpecification, inMemoryStorage⟩ [] 0 exampleRequest
    exampleOkHandler "K1" rfl (by decide) (by decide) (by decide)

/-- Helper: a run against the in-memory store with no record under the
lookup key creates, locks, invokes the handler once, and persists the
serialized response unlocked; the whole output spelled out. -/
theorem run_on_fresh_store
    (strategy : Option IdempotencyActivationStrategy)
    (spec : IdempotentRequestServerSpecification) (st : Store) (now : Nat)
    (request : HttpRequest)
    (handler : HttpRequest → Except HandlerError HttpResponse)
    (key : String)
    (henabled : prepareActivationStrategy strategy request = true)
    (hheader : getHeader request "Idempotency-Key" = some key)
    (hvalid : spec.satisfiesKeySpec key = true)
    (hincl : stringIncludes (spec.getStorageKey request) key = true)
    (hfresh : storeGet st (spec.getStorageKey request) = none) :
    idempotentRequest ⟨strategy, spec, inMemoryStorage⟩ st now request handler
      = ⟨.ok (runNext handler request),
          storeSet
            (storeSet
              (storeSet st (spec.getStorageKey request)
                ⟨spec.getStorageKey request,
                  some (spec.getFingerprint request), none, none⟩)
              (spec.getStorageKey request)
              ⟨spec.getStorageKey request, some (spec.getFingerprint request),
                none, some now⟩)
            (spec.getStorageKey request)
            ⟨spec.getStorageKey request, some (spec.getFingerprint request),
              some (serializeResponse (runNext handler request)), none⟩,
          [.findOrCreateOp
              ⟨spec.getStorageKey request, spec.getFingerprint request⟩,
            .lockOp ⟨spec.getStorageKey request,
              some (spec.getFingerprint request), none, none⟩,
            .setResponseAndUnlockOp
              ⟨spec.getStorageKey request, some (spec.getFingerprint request),
                none, some now⟩
              (serializeResponse (runNext handler request))],
          1⟩ := by
  simp [idempotentRequest, henabled, hheader, hvalid, hincl, inMemoryStorage,
    hfresh, storeGet_storeSet_self, retriedRequestCheck,
    createRequestIdentifier, cloneAndSerializeResponse]

/-- Helper: a run against the in-memory store holding a completed record
(matching fingerprint, unlocked, response present) replays the stored
response without touching the store or the handler; the whole output
spelled out. -/
theorem run_on_completed_record
    (strategy : Option IdempotencyActivationStrategy)
    (spec : IdempotentRequestServerSpecification) (st : Store) (now : Nat)
    (request : HttpRequest)
    (handler : HttpRequest → Except HandlerError HttpResponse)
    (key : String) (record : StoredIdempotentRequest)
    (stored : SerializedResponse)
    (henabled : prepareActivationStrategy strategy request = true)
    (hheader : getHeader request "Idempotency-Key" = some key)
    (hvalid : spec.satisfiesKeySpec key = true)
    (hincl : stringIncludes (spec.getStorageKey request) key = true)
    (hfind : storeGet st (spec.getStorageKey request) = some record)
    (hfp : record.fingerprint = some (spec.getFingerprint request))
    (hlocked : record.lockedAt = none)
    (hresp : record.response = some stored) :
    idempotentRequest ⟨strategy, spec, inMemoryStorage⟩ st now request handler
      = ⟨.ok (deserializeResponse stored), st,
          [.findOrCreateOp
            ⟨spec.getStorageKey request, spec.getFingerprint request⟩], 0⟩ := by
  simp [idempotentRequest, henabled, hheader, hvalid, hincl, inMemoryStorage,
    hfind, retriedRequestCheck, isIdenticalRequest, hfp, hlocked, hresp,
    createRequestIdentifier]

/-- C2 (counterexample): the downstream handler throws, yet the
coordinator does persist a response for the record's lookup key — the
framework's 500 error response — and the subsequent retry with the same
key and identical payload does not reach the handler at all: it is
replayed from the stored error response.  This is the behaviour the
source relies on (`src/index.ts`: "Even if route handler throws an error,
this operation will be executed"), since under Hono's `compose` the
middleware's `await next()` resolves with the error handler's response. -/
theorem downstream_error_persists_response_cx :
    (storeGet (idempotentRequest exampleImplementation [] 5 exampleRequest
          exampleThrowHandler).state exampleStorageKey)
        = some ⟨exampleStorageKey, some "B",
            some ⟨500, [], "Only for testing"⟩, none⟩ ∧
      (idempotentRequest exampleImplementation
          (idempotentRequest exampleImplementation [] 5 exampleRequest
            exampleThrowHandler).state 6 exampleRequest
          exampleOkHandler).result
        = .ok ⟨500, [], "Only for testing"⟩ ∧
      (idempotentRequest exampleImplementation
          (idempotentRequest exampleImplementation [] 5 exampleRequest
            exampleThrowHandler).state 6 exampleRequest
          exampleOkHandler).handlerCalls = 0 :=
  ⟨rfl, rfl, rfl⟩

/-- C2 (amended): if the downstream handler throws, Hono's composition
hands the coordinator the framework error response in place of a handler
response; the coordinator persists exactly that serialized error response
for the record's lookup key (and unlocks), so a subsequent retry with the
same key and identical payload is replayed from the stored error response
and does not invoke the downstream handler afresh. -/
theorem downstream_error_persists_error_response
    (strategy : Option IdempotencyActivationStrategy)
    (spec : IdempotentRequestServerSpecification) (st : Store) (n1 n2 : Nat)
    (request : HttpRequest)
    (handler handler2 : HttpRequest → Except HandlerError HttpResponse)
    (key : String) (e : HandlerError)
    (henabled : prepareActivationStrategy strategy request = true)
    (hheader : getHeader request "Idempotency-Key" = some key)
    (hvalid : spec.satisfiesKeySpec key = true)
    (hincl : stringIncludes (spec.getStorageKey request) key = true)
    (hfresh : storeGet st (spec.getStorageKey request) = none)
    (hthrow : handler request = .error e) :
    storeGet (idempotentRequest ⟨strategy, spec, inMemoryStorage⟩ st n1
          request handler).state (spec.getStorageKey request)
        = some ⟨spec.getStorageKey request, some (spec.getFingerprint request),
            some (serializeResponse (honoErrorResponse e)), none⟩ ∧
      (idempotentRequest ⟨strategy, spec, inMemoryStorage⟩
          (idempotentRequest ⟨strategy, spec, inMemoryStorage⟩ st n1 request
            handler).state n2 request handler2).result
        = .ok (honoErrorResponse e) ∧
      (idempotentRequest ⟨strategy, spec, inMemoryStorage⟩
          (idempotentRequest ⟨strategy, spec, inMemoryStorage⟩ st n1 request
            handler).state n2 request handler2).handlerCalls = 0 := by
  have hnext : runNext handler request = honoErrorResponse e := by
    simp [runNext, hthrow]
  have h1 := run_on_fresh_store strategy spec st n1 request handler key
    henabled hheader hvalid hincl hfresh
  rw [hnext] at h1
  have hstate : storeGet (idempotentRequest ⟨strategy, spec, inMemoryStorage⟩
      st n1 request handler).state (spec.getStorageKey request)
      = some ⟨spec.getStorageKey request, some (spec.getFingerprint request),
          some (serializeResponse (honoErrorResponse e)), none⟩ := by
    rw [h1]
    exact storeGet_storeSet_self _ _ _
  have h2 := run_on_completed_record strategy spec
    (idempotentRequest ⟨strategy, spec, inMemoryStorage⟩ st n1 request
      handler).state n2 request handler2 key
    ⟨spec.getStorageKey request, some (spec.getFingerprint request),
      some (serializeResponse (honoErrorResponse e)), none⟩
    (serializeResponse (honoErrorResponse e))
    henabled hheader hvalid hincl hstate rfl rfl rfl
  refine ⟨hstate, ?_, ?_⟩
  · rw [h2]
    rfl
  · rw [h2]


/-- Witness for `downstream_error_persists_error_response` at the
concrete throwing handler. -/
theorem downstream_error_persists_error_response_witness :
    storeGet (idempotentRequest ⟨none, exampleSpecification, inMemoryStorage⟩
          ([] : Store) 5 exampleRequest exampleThrowHandler).state
        (exampleSpecification.getStorageKey exampleRequest)
        = some ⟨exampleSpecification.getStorageKey exampleRequest,
            some (exampleSpecification.getFingerprint exampleRequest),
            some (serializeResponse (honoErrorResponse ⟨500, "Only for testing"⟩)),
            none⟩ ∧
      (idempotentRequest ⟨none, exampleSpecification, inMemoryStorage⟩
          (idempotentRequest ⟨none, exampleSpecification, inMemoryStorage⟩
            ([] : Store) 5 exampleRequest exampleThrowHandler).state 6
          exampleRequest exampleOkHandler).result
        = .ok (honoErrorResponse ⟨500, "Only for testing"⟩) ∧
      (idempotentRequest ⟨none, exampleSpecification, inMemoryStorage⟩
          (idempotentRequest ⟨none, exampleSpecification, inMemoryStorage⟩
            ([] : Store) 5 exampleRequest exampleThrowHandler).state 6
          exampleRequest exampleOkHandler).handlerCalls = 0 :=
  downstream_error_persists_error_response none exampleSpecification [] 5 6
    exampleRequest exampleThrowHandler exampleOkHandler "K1"
    ⟨500, "Only for testing"⟩ rfl (by decide) (by decide) (by decide)
    (by decide) rfl

/-- C6: serialization then deserialization of a response is the identity,
and for any request processed fresh and then resent with identical
payload and key, the replayed second response is byte-identical to the
first (same status, headers and body), with the downstream handler
invoked once by the first run and not at all by the second. -/
theorem serialize_roundtrip_and_replay_identical :
    (∀ response : HttpResponse,
      deserializeResponse (serializeResponse response) = response) ∧
    (∀ (strategy : Option IdempotencyActivationStrategy)
      (spec : IdempotentRequestServerSpecification) (st : Store) (n1 n2 : Nat)
      (request : HttpRequest)
      (handler handler2 : HttpRequest → Except HandlerError HttpResponse)
      (key : String),
      prepareActivationStrategy strategy request = true →
      getHeader request "Idempotency-Key" = some key →
      spec.satisfiesKeySpec key = true →
      stringIncludes (spec.getStorageKey request) key = true →
      storeGet st (spec.getStorageKey request) = none →
        (idempotentRequest ⟨strategy, spec, inMemoryStorage⟩ st n1 request
            handler).result = .ok (runNext handler request) ∧
        (idempotentRequest ⟨strategy, spec, inMemoryStorage⟩ st n1 request
            handler).handlerCalls = 1 ∧
        (idempotentRequest ⟨strategy, spec, inMemoryStorage⟩
            (idempotentRequest ⟨strategy, spec, inMemoryStorage⟩ st n1
              request handler).state n2 request handler2).result
          = .ok (runNext handler request) ∧
        (idempotentRequest ⟨strategy, spec, inMemoryStorage⟩
            (idempotentRequest ⟨strategy, spec, inMemoryStorage⟩ st n1
              request handler).state n2 request handler2).handlerCalls
          = 0) := by
  refine ⟨fun response => rfl, ?_⟩
  intro strategy spec st n1 n2 request handler handler2 key henabled hheader
    hvalid hincl hfresh
  have h1 := run_on_fresh_store strategy spec st n1 request handler key
    henabled hheader hvalid hincl hfresh
  have hstate : storeGet (idempotentRequest ⟨strategy, spec, inMemoryStorage⟩
      st n1 request handler).state (spec.getStorageKey request)
      = some ⟨spec.getStorageKey request, some (spec.getFingerprint request),
          some (serializeResponse (runNext handler request)), none⟩ := by
    rw [h1]
    exact storeGet_storeSet_self _ _ _
  have h2 := run_on_completed_record strategy spec
    (idempotentRequest ⟨strategy, spec, inMemoryStorage⟩ st n1 request
      handler).state n2 request handler2 key
    ⟨spec.getStorageKey request, some (spec.getFingerprint request),
      some (serializeResponse (runNext handler request)), none⟩
    (serializeResponse (runNext handler request))
    henabled hheader hvalid hincl hstate rfl rfl rfl
  refine ⟨?_, ?_, ?_, ?_⟩
  · rw [h1]
  · rw [h1]
  · rw [h2]
    rfl
  · rw [h2]

/-- Witness for `serialize_roundtrip_and_replay_identical` at the
concrete 200 handler. -/
theorem serialize_roundtrip_and_replay_identical_witness :
    (idempotentRequest ⟨none, exampleSpecification, inMemoryStorage⟩
        ([] : Store) 5 exampleRequest exampleOkHandler).result
        = .ok (runNext exampleOkHandler exampleRequest) ∧
      (idempotentRequest ⟨none, exampleSpecification, inMemoryStorage⟩
        ([] : Store) 5 exampleRequest exampleOkHandler).handlerCalls = 1 ∧
      (idempotentRequest ⟨none, exampleSpecification, inMemoryStorage⟩
          (idempotentRequest ⟨none, exampleSpecification, inMemoryStorage⟩
            ([] : Store) 5 exampleRequest exampleOkHandler).state 6
          exampleRequest exampleOkHandler).result
        = .ok (runNext exampleOkHandler exampleRequest) ∧
      (idempotentRequest ⟨none, exampleSpecification, inMemoryStorage⟩
          (idempotentRequest ⟨none, exampleSpecification, inMemoryStorage⟩
            ([] : Store) 5 exampleRequest exampleOkHandler).state 6
          exampleRequest exampleOkHandler).handlerCalls = 0 :=
  serialize_roundtrip_and_replay_identical.2 none exampleSpecification [] 5 6
    exampleRequest exampleOkHandler exampleOkHandler "K1" rfl (by decide)
    (by decide) (by decide) (by decide)

/-- Helper: a lock operation appears in a run's trace only for the record
returned by that run's `findOrCreate`, and only when the record was
either just created or passed the pre-existing-record checks. -/
theorem storageOps_lockOp_cases {σ : Type}
    (impl : IdempotentRequestImplementation σ) (st : σ) (now : Nat)
    (request : HttpRequest)
    (handler : HttpRequest → Except HandlerError HttpResponse)
    (record : StoredIdempotentRequest)
    (hmem : StorageOp.lockOp record ∈
      (idempotentRequest impl st now request handler).storageOps) :
    ∃ (st1 : σ) (found : FindOrCreateResult),
      impl.storage.findOrCreate st
          ⟨impl.specification.getStorageKey request,
            impl.specification.getFingerprint request⟩ = .ok (st1, found) ∧
        record = found.storedRequest ∧
        (found.created = true ∨
          retriedRequestCheck found.storedRequest
            ⟨impl.specification.getFingerprint request⟩ = none) := by
  by_cases hdis :
      prepareActivationStrategy impl.activationStrategy request = false
  · simp [idempotentRequest, hdis] at hmem
  · rcases hh : getHeader request "Idempotency-Key" with _ | key
    · simp [idempotentRequest, hdis, hh] at hmem
    · by_cases hv : impl.specification.satisfiesKeySpec key = false
      · simp [idempotentRequest, hdis, hh, hv] at hmem
      · by_cases hi :
            stringIncludes (impl.specification.getStorageKey request) key
              = false
        · simp [idempotentRequest, hdis, hh, hv, hi] at hmem
        · rcases hf : impl.storage.findOrCreate st
              ⟨impl.specification.getStorageKey request,
                impl.specification.getFingerprint request⟩ with cause | p
          · simp [idempotentRequest, hdis, hh, hv, hi,
              createRequestIdentifier, hf] at hmem
          · obtain ⟨st1, found⟩ := p
            by_cases hcr : found.created = true
            · refine ⟨st1, found, rfl, ?_, Or.inl hcr⟩
              rcases hl : impl.storage.lock st1 now found.storedRequest
                  with c2 | q
              · simp [idempotentRequest, hdis, hh, hv, hi,
                  createRequestIdentifier, hf, hcr, hl] at hmem
                exact hmem
              · obtain ⟨st2, locked⟩ := q
                rcases hs : impl.storage.setResponseAndUnlock st2 locked
                    (cloneAndSerializeResponse (runNext handler request))
                    with c3 | st3
                · simp [idempotentRequest, hdis, hh, hv, hi,
                    createRequestIdentifier, hf, hcr, hl, hs] at hmem
                  exact hmem
                · simp [idempotentRequest, hdis, hh, hv, hi,
                    createRequestIdentifier, hf, hcr, hl, hs] at hmem
                  exact hmem
            · rcases hrc : retriedRequestCheck found.storedRequest
                  ⟨impl.specification.getFingerprint request⟩
                  with _ | response
              · refine ⟨st1, found, rfl, ?_, Or.inr hrc⟩
                rcases hl : impl.storage.lock st1 now found.storedRequest
                    with c2 | q
                · simp [idempotentRequest, hdis, hh, hv, hi,
                    createRequestIdentifier, hf, hcr, hrc, hl] at hmem
                  exact hmem
                · obtain ⟨st2, locked⟩ := q
                  rcases hs : impl.storage.setResponseAndUnlock st2 locked
                      (cloneAndSerializeResponse (runNext handler request))
                      with c3 | st3
                  · simp [idempotentRequest, hdis, hh, hv, hi,
                      createRequestIdentifier, hf, hcr, hrc, hl, hs] at hmem
                    exact hmem
                  · simp [idempotentRequest, hdis, hh, hv, hi,
                      createRequestIdentifier, hf, hcr, hrc, hl, hs] at hmem
                    exact hmem
              · simp [idempotentRequest, hdis, hh, hv, hi,
                  createRequestIdentifier, hf, hcr, hrc] at hmem

/-- C10: the coordinator issues the storage lock operation only on
records whose `lockedAt` is absent — for every storage implementation
satisfying the contract that freshly created records are handed out
unlocked — because every control path reaching the lock call either just
created the record or has already answered 409 for a locked one, so the
unchecked narrowing to `NonLockedIdempotentRequest` is sound. -/
theorem lock_called_only_on_unlocked_records {σ : Type}
    (impl : IdempotentRequestImplementation σ) (st : σ) (now : Nat)
    (request : HttpRequest)
    (handler : HttpRequest → Except HandlerError HttpResponse)
    (hcontract : ∀ (s : σ) (input : NewIdempotentRequest) (s1 : σ)
      (result : FindOrCreateResult),
      impl.storage.findOrCreate s input = .ok (s1, result) →
      result.created = true → result.storedRequest.lockedAt = none) :
    ∀ record : StoredIdempotentRequest,
      StorageOp.lockOp record ∈
        (idempotentRequest impl st now request handler).storageOps →
      record.lockedAt = none := by
  intro record hmem
  obtain ⟨st1, found, hf, hrec, hcase⟩ :=
    storageOps_lockOp_cases impl st now request handler record hmem
  subst hrec
  rcases hcase with hcr | hrc
  · exact hcontract st _ st1 found hf hcr
  · exact (retriedRequestCheck_none hrc).2.1

/-- Witness for `lock_called_only_on_unlocked_records`: the in-memory
storage satisfies the creation contract, and at the concrete fresh run
the locked record in the trace is indeed unlocked. -/
theorem lock_called_only_on_unlocked_records_witness :
    (⟨exampleStorageKey, some "B", none, none⟩ :
      StoredIdempotentRequest).lockedAt = none :=
  lock_called_only_on_unlocked_records exampleImplementation [] 5
    exampleRequest exampleOkHandler
    (fun s input s1 result h hc =>
      inMemoryStorage_created_unlocked s input s1 result h hc)
    ⟨exampleStorageKey, some "B", none, none⟩ (by decide)

/-- C9 (exhibit of the divergence): an asynchronous storage whose
`findOrCreate` promise rejects makes the coordinator propagate the
original exception unchanged — not wrapped in
`IdempotencyKeyStorageError` — because the `try` block of `src/index.ts`
lines 94-108 returns the operation's result without awaiting it, so the
rejection is adopted after the `try` has exited and bypasses the catch;
a synchronously throwing storage, by contrast, is wrapped with the
original cause, which shows the wrapping is exactly what the guard was
written for. -/
theorem async_rejection_bypasses_storage_error_wrap :
    (idempotentRequest
        (⟨none, exampleSpecification, rejectingStorage⟩ :
          IdempotentRequestImplementation Unit)
        () 0 exampleRequest exampleOkHandler).result
        = .error (.propagated "boom") ∧
      (idempotentRequest
          (⟨none, exampleSpecification, rejectingStorage⟩ :
            IdempotentRequestImplementation Unit)
          () 0 exampleRequest exampleOkHandler).result
        ≠ .error (.storageError
            "Failed to find or create the stored idempotent request"
            "boom") ∧
      (idempotentRequest
          (⟨none, exampleSpecification, failingStorage⟩ :
            IdempotentRequestImplementation Unit)
          () 0 exampleRequest exampleOkHandler).result
        = .error (.storageError
            "Failed to find or create the stored idempotent request"
            "boom") :=
  ⟨rfl, fun h => CoordinatorError.noConfusion (Except.error.inj h), rfl⟩


/-- Lookup in a singleton store. -/
theorem storeGet_single (sk : String) (r : StoredIdempotentRequest) :
    storeGet [(sk, r)] sk = some r := by
  simp [storeGet, List.lookup]

/-- Writing into a singleton store replaces its record. -/
theorem storeSet_single (sk : String) (r r2 : StoredIdempotentRequest) :
    storeSet [(sk, r)] sk r2 = [(sk, r2)] := by
  simp [storeSet]

/-- The lock flag over a singleton store. -/
theorem lockHeld_single (sk : String) (r : StoredIdempotentRequest) :
    lockHeld [(sk, r)] sk = r.lockedAt.isSome := by
  simp [lockHeld, storeGet_single]

/-- Running is the only phase whose flag is set. -/
@[simp] theorem isRunning_start : WorkerPhase.start.isRunning = false := rfl

/-- Running flag of the `toLock` phase. -/
@[simp] theorem isRunning_toLock (r : StoredIdempotentRequest) :
    (WorkerPhase.toLock r).isRunning = false := rfl

/-- Running flag of the `running` phase. -/
@[simp] theorem isRunning_running (r : StoredIdempotentRequest) :
    (WorkerPhase.running r).isRunning = true := rfl

/-- Running flag of the `done` phase. -/
@[simp] theorem isRunning_done (o : WorkerOutcome) :
    (WorkerPhase.done o).isRunning = false := rfl

/-- A phase that is not `running` satisfies its invariant over any
store. -/
theorem phaseInv_of_not_running {sk : String} {store store1 : Store}
    {ph : WorkerPhase} (h : PhaseInv sk store ph)
    (hnr : ph.isRunning = false) : PhaseInv sk store1 ph := by
  cases ph with
  | start => trivial
  | toLock record => exact h
  | running locked => simp at hnr
  | done outcome => trivial

/-- The system invariant is symmetric in the two workers. -/
theorem sysInv_swap {sk fp : String} {store : Store} {a b : WorkerPhase}
    (h : SysInv sk fp ⟨store, a, b⟩) : SysInv sk fp ⟨store, b, a⟩ := by
  obtain ⟨h1, h2, h3, h4, h5⟩ := h
  exact ⟨h1, h3, h2, by tauto, by tauto⟩

/-- One atomic step of either worker preserves the system invariant. -/
theorem workerStep_preserves (sk fp : String) (resp : HttpResponse)
    (now : Nat) (store store1 : Store) (ph other p1 : WorkerPhase)
    (hinv : SysInv sk fp ⟨store, ph, other⟩)
    (hstep : workerStep sk fp resp now store ph = some (store1, p1)) :
    SysInv sk fp ⟨store1, p1, other⟩ := by
  obtain ⟨hstore, hph, hother, hlockiff, hmutex⟩ := hinv
  cases ph with
  | done outcome => simp [workerStep] at hstep
  | start =>
    rcases hstore with hnil | ⟨record, hst, hsk, hfpr⟩
    · subst hnil
      have hnr : other.isRunning = false := by
        cases hor : other.isRunning with
        | false => rfl
        | true =>
          have hcontra := hlockiff.mpr (Or.inr hor)
          simp [lockHeld, storeGet, List.lookup] at hcontra
      simp [workerStep, inMemoryStorage, storeGet, List.lookup, storeSet]
        at hstep
      obtain ⟨h1, h2⟩ := hstep
      subst h1
      subst h2
      refine ⟨Or.inr ⟨⟨sk, some fp, none, none⟩, rfl, rfl, rfl⟩, rfl,
        phaseInv_of_not_running hother hnr, ?_, ?_⟩
      · simp [lockHeld_single, hnr]
      · simp
    · subst hst
      rcases hrc : retriedRequestCheck record ⟨fp⟩ with _ | resp2
      · simp [workerStep, inMemoryStorage, storeGet_single, hrc] at hstep
        obtain ⟨h1, h2⟩ := hstep
        subst h1
        subst h2
        refine ⟨Or.inr ⟨record, rfl, hsk, hfpr⟩, hsk, hother, ?_, ?_⟩
        · simpa using hlockiff
        · simp
      · simp [workerStep, inMemoryStorage, storeGet_single, hrc] at hstep
        obtain ⟨h1, h2⟩ := hstep
        subst h1
        subst h2
        refine ⟨Or.inr ⟨record, rfl, hsk, hfpr⟩, trivial, hother, ?_, ?_⟩
        · simpa using hlockiff
        · simp
  | toLock record =>
    have hsk : record.storageKey = sk := hph
    rcases hstore with hnil | ⟨record2, hst, hsk2, hfpr2⟩
    · subst hnil
      simp [workerStep, inMemoryStorage, storeGet, List.lookup, hsk] at hstep
      obtain ⟨h1, h2⟩ := hstep
      subst h1
      subst h2
      refine ⟨Or.inl rfl, trivial, hother, ?_, ?_⟩
      · simpa using hlockiff
      · simp
    · subst hst
      rcases hlk : record2.lockedAt.isSome with _ | _
      · -- the record is unlocked: the lock succeeds
        have hnr : other.isRunning = false := by
          cases hor : other.isRunning with
          | false => rfl
          | true =>
            have hcontra := hlockiff.mpr (Or.inr hor)
            simp [lockHeld_single, hlk] at hcontra
        simp [workerStep, inMemoryStorage, storeGet_single, hsk, hlk,
          storeSet_single] at hstep
        obtain ⟨h1, h2⟩ := hstep
        subst h1
        subst h2
        refine ⟨Or.inr ⟨{ record2 with lockedAt := some now }, rfl,
            by simpa using hsk2, by simpa using hfpr2⟩,
          ⟨by simpa using hsk2, by simp [lockHeld_single]⟩,
          phaseInv_of_not_running hother hnr, ?_, ?_⟩
        · simp [lockHeld_single, hnr]
        · simp [hnr]
      · -- the record is already locked: the lock throws
        simp [workerStep, inMemoryStorage, storeGet_single, hsk, hlk] at hstep
        obtain ⟨h1, h2⟩ := hstep
        subst h1
        subst h2
        refine ⟨Or.inr ⟨record2, rfl, hsk2, hfpr2⟩, trivial, hother,
          ?_, ?_⟩
        · simpa using hlockiff
        · simp
  | running locked =>
    obtain ⟨hskl, hlh⟩ := hph
    have hnr : other.isRunning = false := by
      cases hor : other.isRunning with
      | false => rfl
      | true => exact absurd ⟨rfl, hor⟩ hmutex
    rcases hstore with hnil | ⟨record2, hst, hsk2, hfpr2⟩
    · subst hnil
      simp [lockHeld, storeGet, List.lookup] at hlh
    · subst hst
      simp [workerStep, inMemoryStorage, storeGet_single, hskl,
        storeSet_single] at hstep
      obtain ⟨h1, h2⟩ := hstep
      subst h1
      subst h2
      refine ⟨Or.inr ⟨_, rfl, by simpa using hsk2, by simpa using hfpr2⟩,
        trivial, phaseInv_of_not_running hother hnr, ?_, ?_⟩
      · simp [lockHeld_single, hnr]
      · simp [hnr]

/-- The system invariant holds in every reachable state. -/
theorem reachable_sysInv {sk fp : String} {r1 r2 : HttpResponse}
    {n1 n2 : Nat} {s : ConcurrentSystem}
    (h : Reachable sk fp r1 r2 n1 n2 s) : SysInv sk fp s := by
  induction h with
  | init =>
    refine ⟨Or.inl rfl, trivial, trivial, ?_, ?_⟩
    · simp [lockHeld, storeGet, List.lookup, WorkerPhase.isRunning]
    · simp [WorkerPhase.isRunning]
  | step hr hstep ih =>
    rename_i s s1
    cases hstep with
    | worker1 store1 p1 h1 =>
      exact workerStep_preserves sk fp r1 n1 s.store store1 s.ph1 s.ph2 p1
        ih h1
    | worker2 store1 p2 h2 =>
      exact sysInv_swap (workerStep_preserves sk fp r2 n2 s.store store1
        s.ph2 s.ph1 p2 (sysInv_swap ih) h2)

/-- A worker that issues its `findOrCreate` while the shared record is
locked observes the lock and finishes with the 409 conflict response,
leaving the store untouched. -/
theorem find_while_locked (sk fp : String) {store : Store}
    (hstore : StoreInv sk fp store) (hlock : lockHeld store sk = true)
    (resp : HttpResponse) (now : Nat) :
    workerStep sk fp resp now store .start
      = some (store,
          .done (.response createIdempotencyKeyConflictErrorResponse)) := by
  rcases hstore with hnil | ⟨record, hst, hsk, hfpr⟩
  · subst hnil
    simp [lockHeld, storeGet, List.lookup] at hlock
  · subst hst
    have hlk : record.lockedAt.isSome = true := by
      simpa [lockHeld_single] using hlock
    simp [workerStep, inMemoryStorage, storeGet_single,
      retriedRequestCheck, isIdenticalRequest, hfpr, hlk]

/-- C5: in the interleaved execution of two requests sharing the same
key and payload, at most one worker holds the record's lock with its
downstream handler in flight at any reachable instant (mutual
exclusion), and a second request that issues its lookup while the first
is processing observes the lock and receives the 409 conflict — it never
receives a response computed by a second concurrent handler
invocation. -/
theorem concurrent_same_key_mutual_exclusion
    (sk fp : String) (r1 r2 : HttpResponse) (n1 n2 : Nat)
    (s : ConcurrentSystem) (h : Reachable sk fp r1 r2 n1 n2 s) :
    ¬(s.ph1.isRunning = true ∧ s.ph2.isRunning = true) ∧
      (s.ph1.isRunning = true → s.ph2 = .start →
        workerStep sk fp r2 n2 s.store .start
          = some (s.store,
              .done (.response createIdempotencyKeyConflictErrorResponse))) ∧
      (s.ph2.isRunning = true → s.ph1 = .start →
        workerStep sk fp r1 n1 s.store .start
          = some (s.store,
              .done (.response createIdempotencyKeyConflictErrorResponse))) := by
  obtain ⟨hstore, hph1, hph2, hlockiff, hmutex⟩ := reachable_sysInv h
  refine ⟨hmutex, ?_, ?_⟩
  · intro hrun _
    exact find_while_locked sk fp hstore (hlockiff.mpr (Or.inl hrun)) r2 n2
  · intro hrun _
    exact find_while_locked sk fp hstore (hlockiff.mpr (Or.inr hrun)) r1 n1

/-- Witness for `concurrent_same_key_mutual_exclusion` at the reachable
state in which worker one has created and locked the record: worker
two's lookup answers the 409 conflict. -/
theorem concurrent_same_key_mutual_exclusion_witness :
    workerStep "K" "F" ⟨200, [], "b"⟩ 2
        [("K", ⟨"K", some "F", none, some 1⟩)] .start
      = some ([("K", ⟨"K", some "F", none, some 1⟩)],
          .done (.response createIdempotencyKeyConflictErrorResponse)) :=
  (concurrent_same_key_mutual_exclusion "K" "F" ⟨200, [], "a"⟩
      ⟨200, [], "b"⟩ 1 2
      ⟨[("K", ⟨"K", some "F", none, some 1⟩)],
        .running ⟨"K", some "F", none, some 1⟩, .start⟩
      (Reachable.step
        (Reachable.step Reachable.init
          (SysStep.worker1 ⟨[], .start, .start⟩
            [("K", ⟨"K", some "F", none, none⟩)]
            (.toLock ⟨"K", some "F", none, none⟩) (by decide)))
        (SysStep.worker1
          ⟨[("K", ⟨"K", some "F", none, none⟩)],
            .toLock ⟨"K", some "F", none, none⟩, .start⟩
          [("K", ⟨"K", some "F", none, some 1⟩)]
          (.running ⟨"K", some "F", none, some 1⟩) (by decide)))).2.1
    rfl rfl

end HonoIdempotentRequest
